import Mathlib

/-!
Verification of the key-policy derivation logic of
`src/subcommands/create_rsa_key.rs` from the parsec-tool repository.

The embedding follows the source: the PSA usage-flag set, the permitted
algorithm variants used by this subcommand, the key attribute record, and
the body of `CreateRsaKey::run` (policy derivation, attribute building,
and the call to the external client's `psa_generate_key`).
-/

namespace CreateRsaKey

/-- Hash algorithms (the source only uses `Hash::Sha256`; neighbouring
variants are kept so the type is not degenerate). -/
inductive Hash where
  | Sha256
  | Sha384
  | Sha512
deriving Repr, DecidableEq

/-- `SignHash`: the hash specification attached to a signature algorithm. -/
inductive SignHash where
  | Any
  | Specific (h : Hash)
deriving Repr, DecidableEq

/-- The permitted-algorithm variants reachable from `CreateRsaKey::run`:
`AsymmetricSignature::RsaPkcs1v15Sign`, `AsymmetricEncryption::RsaOaep`
and `AsymmetricEncryption::RsaPkcs1v15Crypt` (all converted into the
`Algorithm` enum via `.into()` in the source). -/
inductive Algorithm where
  | RsaPkcs1v15Sign (hash_alg : SignHash)
  | RsaOaep (hash_alg : Hash)
  | RsaPkcs1v15Crypt
deriving Repr, DecidableEq

/-- `UsageFlags`: the set of boolean capabilities of a PSA key
(`psa_key_attributes::UsageFlags`). -/
structure UsageFlags where
  export_flag : Bool
  copy : Bool
  cache : Bool
  encrypt : Bool
  decrypt : Bool
  sign_message : Bool
  verify_message : Bool
  sign_hash : Bool
  verify_hash : Bool
  derive : Bool
deriving Repr, DecidableEq

/-- `UsageFlags::default()`: every capability unset. -/
def UsageFlags.default : UsageFlags :=
  { export_flag := false, copy := false, cache := false, encrypt := false,
    decrypt := false, sign_message := false, verify_message := false,
    sign_hash := false, verify_hash := false, derive := false }

def UsageFlags.set_sign_hash (u : UsageFlags) : UsageFlags :=
  { u with sign_hash := true }

def UsageFlags.set_verify_hash (u : UsageFlags) : UsageFlags :=
  { u with verify_hash := true }

def UsageFlags.set_sign_message (u : UsageFlags) : UsageFlags :=
  { u with sign_message := true }

def UsageFlags.set_verify_message (u : UsageFlags) : UsageFlags :=
  { u with verify_message := true }

def UsageFlags.set_encrypt (u : UsageFlags) : UsageFlags :=
  { u with encrypt := true }

def UsageFlags.set_decrypt (u : UsageFlags) : UsageFlags :=
  { u with decrypt := true }

/-- `Policy`: usage flags plus permitted algorithm. -/
structure Policy where
  usage_flags : UsageFlags
  permitted_algorithms : Algorithm
deriving Repr, DecidableEq

/-- Key lifetime (`psa_key_attributes::Lifetime`). -/
inductive Lifetime where
  | Volatile
  | Persistent
deriving Repr, DecidableEq

/-- Key type (`psa_key_attributes::Type`); only the RSA key-pair variant is
reachable from this subcommand, `Other` keeps the type non-degenerate. -/
inductive KeyType where
  | RsaKeyPair
  | Other
deriving Repr, DecidableEq

/-- `Attributes`: the full key attribute record. -/
structure Attributes where
  lifetime : Lifetime
  key_type : KeyType
  bits : Nat
  policy : Policy
deriving Repr, DecidableEq

/-- The fields of the `CreateRsaKey` struct parsed from the command line. -/
structure Config where
  key_name : String
  is_for_signing : Bool
  bits : Option Nat
  oaep : Bool
deriving Repr, DecidableEq

/-- The policy computation at the top of `CreateRsaKey::run`: the
`if self.is_for_signing { ... } else { ... }` expression, with the
builder-style flag mutation of the source carried out step by step. -/
def derive_policy (is_for_signing : Bool) (oaep : Bool) : Policy :=
  if is_for_signing then
    { usage_flags :=
        ((((UsageFlags.default.set_sign_hash).set_verify_hash).set_sign_message).set_verify_message),
      permitted_algorithms :=
        Algorithm.RsaPkcs1v15Sign (SignHash.Specific Hash.Sha256) }
  else
    { usage_flags := ((UsageFlags.default.set_encrypt).set_decrypt),
      permitted_algorithms :=
        if oaep then Algorithm.RsaOaep Hash.Sha256
        else Algorithm.RsaPkcs1v15Crypt }

/-- The `Attributes` record built in `CreateRsaKey::run`:
lifetime `Persistent`, type `RsaKeyPair`, `bits: self.bits.unwrap_or(2048)`,
and the derived policy. -/
def build_attributes (policy : Policy) (bits : Option Nat) : Attributes :=
  { lifetime := Lifetime.Persistent,
    key_type := KeyType.RsaKeyPair,
    bits := bits.getD 2048,
    policy := policy }

/-- The attributes produced by `run` for a given configuration. -/
def attributes_of (cfg : Config) : Attributes :=
  build_attributes (derive_policy cfg.is_for_signing cfg.oaep) cfg.bits

/-- The body of `CreateRsaKey::run`, with the external
`BasicClient::psa_generate_key` call abstracted as a function `gen` from
key name and attributes to a `Result` (the `?` operator propagates its
error; on success `run` returns `Ok(())`). -/
def run {E : Type} (gen : String → Attributes → Except E Unit)
    (cfg : Config) : Except E Unit := do
  let _ ← gen cfg.key_name (attributes_of cfg)
  pure ()

/-- The signing usage flags: exactly sign_hash, verify_hash, sign_message
and verify_message set. -/
def signingFlags : UsageFlags :=
  { export_flag := false, copy := false, cache := false, encrypt := false,
    decrypt := false, sign_message := true, verify_message := true,
    sign_hash := true, verify_hash := true, derive := false }

/-- The encryption usage flags: exactly encrypt and decrypt set. -/
def encryptionFlags : UsageFlags :=
  { export_flag := false, copy := false, cache := false, encrypt := true,
    decrypt := true, sign_message := false, verify_message := false,
    sign_hash := false, verify_hash := false, derive := false }

end CreateRsaKey

namespace CreateRsaKey

/-- C1: whenever `is_for_signing` is true, the derived policy has exactly
the four signing/verification usage flags set and its permitted algorithm
is RSA PKCS#1 v1.5 signing with hash SHA-256. -/
theorem c1_signing_policy (s o : Bool) (h : s = true) :
    (derive_policy s o).usage_flags = signingFlags ∧
    (derive_policy s o).permitted_algorithms =
      Algorithm.RsaPkcs1v15Sign (SignHash.Specific Hash.Sha256) := by
  subst h; cases o <;> exact ⟨rfl, rfl⟩

/-- Witness for C1 at `s = true`, `o = false`. -/
theorem c1_signing_policy_witness :
    (derive_policy true false).usage_flags = signingFlags ∧
    (derive_policy true false).permitted_algorithms =
      Algorithm.RsaPkcs1v15Sign (SignHash.Specific Hash.Sha256) :=
  c1_signing_policy true false rfl

/-- C2: whenever `is_for_signing` is false, the derived policy has exactly
encrypt and decrypt set, and its permitted algorithm is RSA OAEP with
SHA-256 when `oaep` is true and RSA PKCS#1 v1.5 encryption otherwise. -/
theorem c2_encryption_policy (s o : Bool) (h : s = false) :
    (derive_policy s o).usage_flags = encryptionFlags ∧
    (derive_policy s o).permitted_algorithms =
      (if o then Algorithm.RsaOaep Hash.Sha256
       else Algorithm.RsaPkcs1v15Crypt) := by
  subst h; cases o <;> exact ⟨rfl, rfl⟩

/-- Witness for C2 at `s = false`, `o = true`. -/
theorem c2_encryption_policy_witness :
    (derive_policy false true).usage_flags = encryptionFlags ∧
    (derive_policy false true).permitted_algorithms =
      (if true then Algorithm.RsaOaep Hash.Sha256
       else Algorithm.RsaPkcs1v15Crypt) :=
  c2_encryption_policy false true rfl

/-- C3: in the signing branch the `oaep` flag has no effect: the policy
derived with `oaep = true` equals the one derived with `oaep = false`. -/
theorem c3_oaep_noop_when_signing :
    derive_policy true true = derive_policy true false := rfl

/-- C4: the built attributes have `bits = 2048` when no bit size is given,
and `bits = n` unchanged for any supplied positive `n`, never rejected. -/
theorem c4_bits_default_and_passthrough (p : Policy) :
    (build_attributes p none).bits = 2048 ∧
    ∀ n : Nat, 0 < n → (build_attributes p (some n)).bits = n :=
  ⟨rfl, fun _ _ => rfl⟩

/-- Witness for C4 at the encryption policy and `n = 123`. -/
theorem c4_bits_default_and_passthrough_witness :
    (build_attributes (derive_policy false false) none).bits = 2048 ∧
    (build_attributes (derive_policy false false) (some 123)).bits = 123 :=
  ⟨(c4_bits_default_and_passthrough (derive_policy false false)).1,
   (c4_bits_default_and_passthrough (derive_policy false false)).2 123
     (by decide)⟩

/-- C5: for every input the built attributes have lifetime `Persistent`
and key type `RsaKeyPair`. -/
theorem c5_lifetime_and_key_type (cfg : Config) :
    (attributes_of cfg).lifetime = Lifetime.Persistent ∧
    (attributes_of cfg).key_type = KeyType.RsaKeyPair :=
  ⟨rfl, rfl⟩

/-- C6: the two capability families are mutually exclusive: a signing
policy sets exactly the four signing/verification flags and never
encrypt/decrypt, and an encryption policy sets exactly encrypt and
decrypt and never any signing flag. -/
theorem c6_capability_families_exclusive (s o : Bool) :
    (s = true →
      (derive_policy s o).usage_flags = signingFlags ∧
      (derive_policy s o).usage_flags.encrypt = false ∧
      (derive_policy s o).usage_flags.decrypt = false) ∧
    (s = false →
      (derive_policy s o).usage_flags = encryptionFlags ∧
      (derive_policy s o).usage_flags.sign_hash = false ∧
      (derive_policy s o).usage_flags.verify_hash = false ∧
      (derive_policy s o).usage_flags.sign_message = false ∧
      (derive_policy s o).usage_flags.verify_message = false) := by
  cases s <;> cases o <;> exact ⟨by decide, by decide⟩

/-- Witness for C6 at `s = true, o = false` and `s = false, o = false`. -/
theorem c6_capability_families_exclusive_witness :
    (derive_policy true false).usage_flags = signingFlags ∧
    (derive_policy false false).usage_flags = encryptionFlags :=
  ⟨((c6_capability_families_exclusive true false).1 rfl).1,
   ((c6_capability_families_exclusive false false).2 rfl).1⟩

/-- C7: the concrete scenario `is_for_signing = false`, `oaep = false`,
`bits = none` yields exactly the record {Persistent, RsaKeyPair, 2048,
{encrypt+decrypt, RSA PKCS#1 v1.5 encryption}}. -/
theorem c7_default_encryption_scenario :
    attributes_of
      { key_name := "key", is_for_signing := false, bits := none,
        oaep := false } =
      { lifetime := Lifetime.Persistent,
        key_type := KeyType.RsaKeyPair,
        bits := 2048,
        policy := { usage_flags := encryptionFlags,
                    permitted_algorithms := Algorithm.RsaPkcs1v15Crypt } } :=
  rfl

/-- C8: `run` fails exactly when the external `generate_key` call fails on
the name and built attributes, and the error is propagated unchanged; the
policy-derivation and attribute-building logic contributes no error. -/
theorem c8_error_iff_client_error {E : Type}
    (gen : String → Attributes → Except E Unit) (cfg : Config) (e : E) :
    run gen cfg = Except.error e ↔
    gen cfg.key_name (attributes_of cfg) = Except.error e := by
  unfold run
  cases hg : gen cfg.key_name (attributes_of cfg) with
  | error e0 =>
      simp [Bind.bind, Except.bind, hg]
  | ok u =>
      cases u
      simp [Bind.bind, Except.bind, hg, pure, Except.pure]

/-- Witness for C8: a client that fails with error 7 makes `run` fail
with error 7. -/
theorem c8_error_iff_client_error_witness :
    run (fun _ _ => (Except.error 7 : Except Nat Unit))
      { key_name := "key", is_for_signing := false, bits := none,
        oaep := false } = Except.error 7 :=
  (c8_error_iff_client_error (fun _ _ => (Except.error 7 : Except Nat Unit))
    { key_name := "key", is_for_signing := false, bits := none,
      oaep := false } 7).mpr rfl

/-- C9: no usage flag outside the two specified families is ever set:
export, copy, cache and derive stay false in every derived policy. -/
theorem c9_no_extra_flags (s o : Bool) :
    (derive_policy s o).usage_flags.export_flag = false ∧
    (derive_policy s o).usage_flags.copy = false ∧
    (derive_policy s o).usage_flags.cache = false ∧
    (derive_policy s o).usage_flags.derive = false := by
  cases s <;> cases o <;> exact ⟨rfl, rfl, rfl, rfl⟩

/-- C10: a supplied bit size of zero is passed through unchanged: the
built attributes have `bits = 0`, not the 2048 default. -/
theorem c10_zero_bits_passthrough (p : Policy) :
    (build_attributes p (some 0)).bits = 0 := rfl

end CreateRsaKey
